import Mathlib

/-!
Verification of the bulk TSV import pipeline and CRUD handlers of the
Instadrive backend (`src/Services/customer_router.py`,
`src/Services/location_router.py`, `src/Services/car_router.py`,
`src/Models/*.py`).

Modelling conventions:
* Python strings are Lean `String`s; a cell read from `csv.DictReader` is an
  `Option String` (`none` models Python `None`, produced when a data line is
  shorter than the header).
* Python `float` values are modelled as exact rationals (`Rat`); the float
  grammar accepted by `float(...)` is reproduced for finite decimals with
  optional sign, fraction, exponent and digit-group underscores.  The tokens
  `inf`/`nan` are mapped to a parse failure, which is observationally
  equivalent inside this code: a parsed infinity always fails the subsequent
  range check, and a `nan` fails every comparison, and both paths re-raise the
  same `ValueError` message.  IEEE rounding at the very boundary of the
  coordinate ranges is not modelled.
* Exceptions are modelled with `Except String`; the message text is kept
  faithful only where a claim depends on it (the coordinate error message).
* The SQLAlchemy session follows its documented contract: a storage failure
  during a flush or commit leaves the session in a state where every further
  flush/commit raises (`PendingRollbackError`) until `rollback` is called.
-/

/-- Python str.strip character class (ASCII whitespace). -/
def isPySpace (c : Char) : Bool :=
  c == ' ' || c == '\t' || c == '\n' || c == '\r' || c == '\x0b' || c == '\x0c'

/-- Drop leading characters satisfying `p`. -/
def dropLeading (p : Char → Bool) : List Char → List Char
  | [] => []
  | c :: cs => if p c then dropLeading p cs else c :: cs

/-- Python `s.strip()` on the character list. -/
def pyStripList (cs : List Char) : List Char :=
  ((dropLeading isPySpace (dropLeading isPySpace cs).reverse)).reverse

/-- Python `s.strip()`. -/
def pyStrip (s : String) : String :=
  ⟨pyStripList s.data⟩

/-- ASCII lower-casing of one character, as Python `str.lower` acts on the
ASCII range (the token compared against is the ASCII word true). -/
def charLower (c : Char) : Char :=
  if 'A' ≤ c && c ≤ 'Z' then Char.ofNat (c.toNat + 32) else c

/-- Python `s.lower()` (ASCII fragment). -/
def pyLower (s : String) : String :=
  ⟨s.data.map charLower⟩

/-- Split a character list at every occurrence of `sep`. -/
def splitOnCharAux (sep : Char) (cur : List Char) : List Char → List (List Char)
  | [] => [cur.reverse]
  | c :: cs =>
      if c == sep then cur.reverse :: splitOnCharAux sep [] cs
      else splitOnCharAux sep (c :: cur) cs

/-- Split a string at every occurrence of `sep` (Python `s.split(sep)`). -/
def pySplit (sep : Char) (s : String) : List String :=
  (splitOnCharAux sep [] s.data).map (fun l => ⟨l⟩)

/-- Decimal digit character of `n % 10`. -/
def digitChar (n : Nat) : Char :=
  Char.ofNat (48 + n % 10)

/-- Fuel-driven decimal rendering of a natural number. -/
def natStrAux : Nat → Nat → List Char
  | 0, _ => []
  | fuel + 1, n => if n < 10 then [digitChar n] else natStrAux fuel (n / 10) ++ [digitChar n]

/-- Decimal rendering of a natural number, as Python `str(n)`. -/
def natStr (n : Nat) : String :=
  ⟨natStrAux (n + 1) n⟩

/-- Does `s` end with suffix `p` (Python `s.endswith(p)`)? -/
def pyEndsWith (s p : String) : Bool :=
  s.data.reverse.take p.data.length == p.data.reverse

/-- One cell of a `csv.DictReader` row: `none` models Python `None`. -/
abbrev Cell := Option String

/-- A `csv.DictReader` row: the header fieldnames associated with the cell
values of one data line. -/
abbrev Row := List (String × Cell)

/-- The row dictionary `dict(zip(fieldnames, row))` padded with `None`
(`restval`) for a short line, as `csv.DictReader.__next__` builds it. -/
def dictRow (fieldnames cells : List String) : Row :=
  fieldnames.zip (cells.map some ++ List.replicate (fieldnames.length - cells.length) none)

/-- Python `row[k]` would see this value; `none` means the key is absent. -/
def rowItem? (r : Row) (k : String) : Option Cell :=
  (r.find? (fun p => p.1 == k)).map (fun p => p.2)

/-- Python `row.get(k, d)`. -/
def rowGetD (r : Row) (k : String) (d : Cell) : Cell :=
  (rowItem? r k).getD d

/-- Python `row[k]`, raising `KeyError` when the key is absent. -/
def keyItem (r : Row) (k : String) : Except String Cell :=
  match rowItem? r k with
  | none => .error ("KeyError: " ++ k)
  | some c => .ok c

/-- Python `cell.strip()`, raising `AttributeError` on `None`. -/
def cellStrip : Cell → Except String String
  | none => .error "AttributeError: NoneType object has no attribute strip"
  | some s => .ok (pyStrip s)

/-- Python `s or None` applied to a stripped string: empty becomes `None`. -/
def orNone (s : String) : Option String :=
  if s == "" then none else some s

/-- Are all underscores of the character list strictly between two digits
(the CPython rule for digit-group underscores in float literals)? -/
def underscoreOkAux : Char → List Char → Bool
  | _, [] => true
  | prev, c :: rest =>
      if c == '_' then
        prev.isDigit && (match rest with | d :: _ => d.isDigit | [] => false)
          && underscoreOkAux c rest
      else underscoreOkAux c rest

/-- Underscore well-placement for a whole literal. -/
def underscoresOk : List Char → Bool
  | [] => true
  | c :: rest => if c == '_' then false else underscoreOkAux c rest

/-- Value of a digit list read in base 10. -/
def digitsToNat (acc : Nat) : List Char → Nat
  | [] => acc
  | c :: rest => digitsToNat (acc * 10 + (c.toNat - 48)) rest

/-- Mantissa part of the float grammar: `D+ [. D*] | . D+`, returning the
mantissa digits value, the number of fractional digits and the rest. -/
def floatMantissa (cs : List Char) : Option (Nat × Nat × List Char) :=
  let ip := cs.takeWhile Char.isDigit
  let rest := cs.dropWhile Char.isDigit
  match rest with
  | '.' :: rest2 =>
      let fp := rest2.takeWhile Char.isDigit
      let rest3 := rest2.dropWhile Char.isDigit
      if ip.isEmpty && fp.isEmpty then none
      else some (digitsToNat 0 (ip ++ fp), fp.length, rest3)
  | _ => if ip.isEmpty then none else some (digitsToNat 0 ip, 0, rest)

/-- Exponent part of the float grammar: empty, or `e`/`E` with optional sign
and at least one digit consuming the whole remainder. -/
def floatExponent : List Char → Option Int
  | [] => some 0
  | c :: rest =>
      if c == 'e' || c == 'E' then
        let (neg, rest2) : Bool × List Char :=
          match rest with
          | '+' :: r => (false, r)
          | '-' :: r => (true, r)
          | r => (false, r)
        if rest2.isEmpty || !(rest2.all Char.isDigit) then none
        else some (if neg then -(digitsToNat 0 rest2 : Int) else (digitsToNat 0 rest2 : Int))
      else none

/-- Exact rational value of a parsed decimal `sign * m * 10 ^ (e - f)`. -/
def ratOfParts (neg : Bool) (m : Nat) (f : Nat) (e : Int) : Rat :=
  let num : Int := if neg then -(m : Int) else (m : Int)
  let shift : Int := e - (f : Int)
  if 0 ≤ shift then mkRat (num * (10 : Int) ^ shift.toNat) 1
  else mkRat num ((10 : Nat) ^ (-shift).toNat)

/-- Python `float(s)` on finite decimal literals, as an exact rational;
`none` models a `ValueError` (and, observationally for this code, the
non-finite tokens `inf`/`nan`). -/
def pyFloat? (s : String) : Option Rat :=
  let cs := pyStripList s.data
  if underscoresOk cs then
    let cs := cs.filter (fun c => !(c == '_'))
    let (neg, cs2) : Bool × List Char :=
      match cs with
      | '+' :: r => (false, r)
      | '-' :: r => (true, r)
      | r => (false, r)
    match floatMantissa cs2 with
    | none => none
    | some (m, f, rest) =>
        match floatExponent rest with
        | none => none
        | some e => some (ratOfParts neg m f e)
  else none

/-- Customer record built by one import row (`customer_data` of
`import_customers_from_tsv`); the freshly generated `id` and the
`created_at` clock reading are environment-supplied and not inspected by any
claim, so they are omitted from the record.  The `preferences` cell is kept
as the raw text: `parse_preferences` never raises (every decode failure is
defaulted to the empty dictionary), which is the only fact used here. -/
structure CustomerRec where
  name : String
  email : String
  phone : Option String
  address : Option String
  preferences : Cell
  is_active : Bool := true
  verified : Bool := false
deriving DecidableEq

/-- Helper `parse_preferences` of `customer_router.py`: total, never raises
(`json.JSONDecodeError` and `TypeError` are caught and defaulted). -/
def parse_preferences (c : Cell) : Cell :=
  c

/-- One customer import row (`customer_router.py` lines 185-197): required
cells are indexed (`KeyError` impossible after the header check), every text
cell is stripped (`AttributeError` on a `None` cell), optional cells default
to the empty string and `or None` turns an empty strip into `None`. -/
def validateCustomerRow (r : Row) : Except String CustomerRec := do
  let nameCell ← keyItem r "name"
  let name ← cellStrip nameCell
  let emailCell ← keyItem r "email"
  let email ← cellStrip emailCell
  let phone ← cellStrip (rowGetD r "phone" (some ""))
  let address ← cellStrip (rowGetD r "address" (some ""))
  let prefs := parse_preferences (rowGetD r "preferences" (some "\x7b\x7d"))
  .ok { name := name, email := email, phone := orNone phone,
        address := orNone address, preferences := prefs }

/-- Location record built by one import row (`location_data` of
`import_locations_from_tsv`); `id` and `created_at` omitted as for
customers. -/
structure LocationRec where
  name : String
  address : String
  latitude : Rat
  longitude : Rat
  is_pickup_location : Bool
  is_dropoff_location : Bool
  is_active : Bool := true
deriving DecidableEq

/-- The Python rendering of a cell inside an f-string. -/
def pyShow : Cell → String
  | none => "None"
  | some s => s

/-- The re-raised coordinate error message of `location_router.py` line 331,
built from the raw (unstripped) cells. -/
def coordErr (latCell longCell : Cell) : String :=
  "Invalid coordinates: lat=" ++ pyShow latCell ++ ", long=" ++ pyShow longCell

/-- Python `row.get(k, the-word-true).lower() == the-word-true`
(`location_router.py` lines 334-335) applied to the fetched cell: a `None`
cell raises `AttributeError`, any present string lower-cases and compares. -/
def pyBool : Cell → Except String Bool
  | none => .error "AttributeError: NoneType object has no attribute lower"
  | some s => .ok (pyLower s == "true")

/-- Python `float(cell)` inside the coordinate block: a `None` cell raises
`TypeError` (not caught by the `except ValueError`), a parse failure raises
`ValueError` which the handler replaces by the coordinate message. -/
def floatCell (c : Cell) (msg : String) : Except String Rat :=
  match c with
  | none => .error "TypeError: float() argument must be a string, not NoneType"
  | some s =>
      match pyFloat? s with
      | none => .error msg
      | some v => .ok v

/-- One location import row (`location_router.py` lines 323-348): both
coordinates are parsed first and range-checked jointly, then the boolean
flags are converted, then name and address are stripped. -/
def validateLocationRow (r : Row) : Except String LocationRec := do
  let latCell ← keyItem r "latitude"
  let longCell ← keyItem r "longitude"
  let lat ← floatCell latCell (coordErr latCell longCell)
  let lon ← floatCell longCell (coordErr latCell longCell)
  if !(mkRat (-90) 1 ≤ lat && lat ≤ mkRat 90 1
        && mkRat (-180) 1 ≤ lon && lon ≤ mkRat 180 1) then
    .error (coordErr latCell longCell)
  else do
    let isPickup ← pyBool (rowGetD r "is_pickup_location" (some "true"))
    let isDropoff ← pyBool (rowGetD r "is_dropoff_location" (some "true"))
    let nameCell ← keyItem r "name"
    let name ← cellStrip nameCell
    let addrCell ← keyItem r "address"
    let address ← cellStrip addrCell
    .ok { name := name, address := address, latitude := lat, longitude := lon,
          is_pickup_location := isPickup, is_dropoff_location := isDropoff }

instance {ε α : Type} [DecidableEq ε] [DecidableEq α] : DecidableEq (Except ε α) := fun a b =>
  match a, b with
  | .ok x, .ok y => decidable_of_iff (x = y) (by constructor <;> (intro h; cases h; rfl))
  | .error x, .error y => decidable_of_iff (x = y) (by constructor <;> (intro h; cases h; rfl))
  | .ok _, .error _ => isFalse (fun h => Except.noConfusion h)
  | .error _, .ok _ => isFalse (fun h => Except.noConfusion h)

/-- The result object returned by both importers
(`ImportResult` of the routers): `failed` entries pair the stringified
1-based row ordinal with the error message. -/
structure ImportResult where
  successful : Nat := 0
  failed : List (String × String) := []
  total : Nat := 0
deriving DecidableEq

/-- The SQLAlchemy session as seen by this code: records committed by earlier
requests, records written (flushed) but not yet committed in this request,
the poisoned flag of a session whose transaction must be rolled back
(`PendingRollbackError` contract), and the number of bulk saves attempted. -/
structure Db (α : Type) where
  committed : List α
  pending : List α
  poisoned : Bool
  flushCount : Nat
deriving DecidableEq

/-- Storage failure oracle: whether the n-th bulk save raises, and whether
the final commit raises. -/
structure DbOracle where
  flushFails : Nat → Bool
  commitFails : Bool

/-- The fresh session handed to each request by `get_db`. -/
def freshSession {α : Type} (committed : List α) : Db α :=
  { committed := committed, pending := [], poisoned := false, flushCount := 0 }

/-- `db.bulk_save_objects(batch)`: raises if the session is poisoned or if
the storage oracle fails this attempt (poisoning the session); otherwise the
records join the uncommitted writes of the transaction. -/
def Db.bulkSave {α : Type} (o : DbOracle) (recs : List α) (db : Db α) :
    Except (String × Db α) (Db α) :=
  if db.poisoned then
    .error ("PendingRollbackError: this session transaction has been rolled back", db)
  else if o.flushFails db.flushCount then
    .error ("bulk save failed", { db with poisoned := true, flushCount := db.flushCount + 1 })
  else
    .ok { db with pending := db.pending ++ recs, flushCount := db.flushCount + 1 }

/-- `db.commit()`: raises if the session is poisoned or if the storage oracle
fails the commit (poisoning the session); otherwise the uncommitted writes
become durable. -/
def Db.commit {α : Type} (o : DbOracle) (db : Db α) : Except (String × Db α) (Db α) :=
  if db.poisoned then
    .error ("PendingRollbackError: this session transaction has been rolled back", db)
  else if o.commitFails then
    .error ("commit failed", { db with poisoned := true })
  else
    .ok { db with committed := db.committed ++ db.pending, pending := [] }

/-- `db.rollback()`: discards the uncommitted writes and clears the poisoned
state. -/
def Db.rollback {α : Type} (db : Db α) : Db α :=
  { db with pending := [], poisoned := false }

/-- The per-row loop shared by both importers (`customer_router.py` lines
183-208, `location_router.py` lines 321-359): `total` is incremented for
every row; a validation failure appends one `failed` entry; a validated
record joins the batch, and a full batch (100) is flushed inside the same
per-row `try`, so a flush failure is also recorded as a row error (with the
batch kept); only after a successful flush is `successful` incremented and
the batch cleared. -/
def importLoop {α : Type} (o : DbOracle) (validate : Row → Except String α) :
    List Row → ImportResult → List α → Db α → ImportResult × List α × Db α
  | [], res, batch, db => (res, batch, db)
  | r :: rest, res, batch, db =>
      let total := res.total + 1
      match validate r with
      | .error e =>
          importLoop o validate rest
            { res with total := total, failed := res.failed ++ [(natStr total, e)] } batch db
      | .ok rec =>
          let batch2 := batch ++ [rec]
          if 100 ≤ batch2.length then
            match Db.bulkSave o batch2 db with
            | .ok db2 =>
                importLoop o validate rest
                  { res with total := total, successful := res.successful + batch2.length }
                  [] db2
            | .error (e, db2) =>
                importLoop o validate rest
                  { res with total := total, failed := res.failed ++ [(natStr total, e)] }
                  batch2 db2
          else
            importLoop o validate rest { res with total := total } batch2 db

/-- A request-level error surfaced to the HTTP caller. -/
structure HErr where
  status : Nat
  detail : String
deriving DecidableEq

/-- The tail of the importer body after the row loop: flush any non-empty
remaining batch (`if batch:`), increment `successful` only on a successful
flush, then `db.commit()`; a failure in either becomes the blanket 500 with
`db.rollback()`. -/
def finishImport {α : Type} (o : DbOracle) (res : ImportResult) (batch : List α)
    (db : Db α) : Except HErr ImportResult × Db α :=
  if batch.isEmpty then
    match Db.commit o db with
    | .error (e, db4) => (.error { status := 500, detail := e }, db4.rollback)
    | .ok db4 => (.ok res, db4)
  else
    match Db.bulkSave o batch db with
    | .error (e, db3) => (.error { status := 500, detail := e }, db3.rollback)
    | .ok db3 =>
        match Db.commit o db3 with
        | .error (e, db4) => (.error { status := 500, detail := e }, db4.rollback)
        | .ok db4 => (.ok { res with successful := res.successful + batch.length }, db4)

/-- The shared body of `import_customers_from_tsv` and
`import_locations_from_tsv`: everything inside the outer `try` runs under a
blanket `except Exception` which rolls the session back and re-raises as an
HTTP 500 — including the deliberately raised 400 `HTTPException` for missing
required columns (whose `str(e)` keeps the 400 in the detail text) and the
`TypeError` thrown by the header-subset test when `reader.fieldnames` is
`None` (empty upload). -/
def runImport {α : Type} (o : DbOracle) (required : List String)
    (validate : Row → Except String α) :
    Option (List String) → List Row → Db α → Except HErr ImportResult × Db α
  | none, _, db =>
      (.error { status := 500, detail := "TypeError: argument of type NoneType is not iterable" },
        db.rollback)
  | some fieldnames, rows, db =>
      if !(required.all (fun f => fieldnames.contains f)) then
        (.error { status := 500, detail := "400: Missing required fields" }, db.rollback)
      else
        match importLoop o validate rows {} [] db with
        | (res, batch, db2) => finishImport o res batch db2

/-- Required header columns of the customer import. -/
def customerRequired : List String := ["name", "email"]

/-- Required header columns of the location import. -/
def locationRequired : List String := ["name", "address", "latitude", "longitude"]

/-- `import_customers_from_tsv` (`customer_router.py` lines 166-223) at the
`csv.DictReader` boundary: decoding and TSV tokenisation are supplied as the
header fieldnames and the row dictionaries. -/
def import_customers_from_tsv (o : DbOracle) (fieldnames? : Option (List String))
    (rows : List Row) (db : Db CustomerRec) : Except HErr ImportResult × Db CustomerRec :=
  runImport o customerRequired validateCustomerRow fieldnames? rows db

/-- `import_locations_from_tsv` (`location_router.py` lines 304-375) at the
`csv.DictReader` boundary. -/
def import_locations_from_tsv (o : DbOracle) (fieldnames? : Option (List String))
    (rows : List Row) (db : Db LocationRec) : Except HErr ImportResult × Db LocationRec :=
  runImport o locationRequired validateLocationRow fieldnames? rows db

/-- `csv.DictReader(...).fieldnames` for the uploaded text: `None` on empty
input, otherwise the first line split at tabs.  This models the csv
collaborator at the inputs exercised here (quoting and CRLF endings are not
modelled). -/
def dictReaderFieldnames (content : String) : Option (List String) :=
  if content == "" then none
  else some (pySplit '\t' ((pySplit '\n' content).headD ""))

/-- The data rows the `csv.DictReader` iterator yields for the uploaded
text: every non-blank line after the header, as a padded row dictionary
(blank lines are skipped by the csv reader). -/
def dictReaderRows (content : String) : List Row :=
  match dictReaderFieldnames content with
  | none => []
  | some fns =>
      (((pySplit '\n' content).tail).filter (fun l => !(l == ""))).map
        (fun line => dictRow fns (pySplit '\t' line))

/-- Endpoint `import_customers` (`customer_router.py` lines 152-164): the
filename extension is checked before any content is read (a failure here is
a plain 400, raised outside the blanket `except`), then the file content is
handed to the TSV importer on a fresh session. -/
def import_customers (o : DbOracle) (filename content : String)
    (store : List CustomerRec) : Except HErr ImportResult × Db CustomerRec :=
  if !(pyEndsWith filename ".tsv") then
    (.error { status := 400, detail := "Only TSV files are supported" }, freshSession store)
  else
    import_customers_from_tsv o (dictReaderFieldnames content) (dictReaderRows content)
      (freshSession store)

/-- Endpoint `import_locations` (`location_router.py` lines 291-302). -/
def import_locations (o : DbOracle) (filename content : String)
    (store : List LocationRec) : Except HErr ImportResult × Db LocationRec :=
  if !(pyEndsWith filename ".tsv") then
    (.error { status := 400, detail := "Only TSV files are supported" }, freshSession store)
  else
    import_locations_from_tsv o (dictReaderFieldnames content) (dictReaderRows content)
      (freshSession store)

/-- The persisted `Customer` entity (`Models/customer.py`); timestamps are
abstract clock readings, the open JSON `preferences` map is abstracted to a
string-keyed string map (no claim inspects its contents). -/
structure Customer where
  id : String
  email : String
  name : String
  phone : Option String
  address : Option String
  is_active : Bool
  verified : Bool
  preferences : List (String × String)
  created_at : Nat
  updated_at : Option Nat
  last_login : Option Nat
deriving DecidableEq

/-- The persisted `Location` entity (`Models/location.py`). -/
structure Location where
  id : String
  name : String
  address : String
  latitude : Rat
  longitude : Rat
  is_pickup_location : Bool
  is_dropoff_location : Bool
  is_active : Bool
  created_at : Nat
  updated_at : Option Nat
deriving DecidableEq

/-- The persisted `Car` entity (`Models/car.py`); the open `features` map and
the maintenance history are abstracted (no claim inspects them). -/
structure Car where
  id : String
  license_plate : String
  vin : String
  make : String
  model : String
  year : String
  features : List (String × String)
  maintenance_history : List String
  is_active : Bool
  is_available : Bool
  location_id : Option String
  created_at : Nat
  updated_at : Option Nat
deriving DecidableEq

/-- The pydantic `CustomerUpdate` payload after `dict(exclude_unset=True)`:
a field is `none` exactly when the caller did not supply it (a supplied
`null` for a nullable column is `some none`). -/
structure CustomerUpdate where
  name : Option String := none
  email : Option String := none
  phone : Option (Option String) := none
  address : Option (Option String) := none
  preferences : Option (List (String × String)) := none
  is_active : Option Bool := none
  verified : Option Bool := none

/-- The pydantic `LocationUpdate` payload after `dict(exclude_unset=True)`. -/
structure LocationUpdate where
  name : Option String := none
  address : Option String := none
  latitude : Option Rat := none
  longitude : Option Rat := none
  is_pickup_location : Option Bool := none
  is_dropoff_location : Option Bool := none
  is_active : Option Bool := none

/-- The pydantic `CarUpdate` payload after `dict(exclude_unset=True)`. -/
structure CarUpdate where
  license_plate : Option String := none
  vin : Option String := none
  make : Option String := none
  model : Option String := none
  year : Option String := none
  features : Option (List (String × String)) := none
  maintenance_history : Option (List String) := none
  location_id : Option (Option String) := none
  is_active : Option Bool := none
  is_available : Option Bool := none

/-- The `setattr` loop of `update_customer` (`customer_router.py` lines
119-123) followed by the unconditional `updated_at = datetime.utcnow()`. -/
def applyCustomerUpdate (c : Customer) (u : CustomerUpdate) (now : Nat) : Customer :=
  { c with
    name := u.name.getD c.name,
    email := u.email.getD c.email,
    phone := u.phone.getD c.phone,
    address := u.address.getD c.address,
    preferences := u.preferences.getD c.preferences,
    is_active := u.is_active.getD c.is_active,
    verified := u.verified.getD c.verified,
    updated_at := some now }

/-- The `setattr` loop of `update_location` (`location_router.py` lines
222-226) followed by the unconditional `updated_at = datetime.utcnow()`. -/
def applyLocationUpdate (l : Location) (u : LocationUpdate) (now : Nat) : Location :=
  { l with
    name := u.name.getD l.name,
    address := u.address.getD l.address,
    latitude := u.latitude.getD l.latitude,
    longitude := u.longitude.getD l.longitude,
    is_pickup_location := u.is_pickup_location.getD l.is_pickup_location,
    is_dropoff_location := u.is_dropoff_location.getD l.is_dropoff_location,
    is_active := u.is_active.getD l.is_active,
    updated_at := some now }

/-- The `setattr` loop of `update_car` (`car_router.py` lines 115-119)
followed by the unconditional `updated_at = datetime.utcnow()`. -/
def applyCarUpdate (car : Car) (u : CarUpdate) (now : Nat) : Car :=
  { car with
    license_plate := u.license_plate.getD car.license_plate,
    vin := u.vin.getD car.vin,
    make := u.make.getD car.make,
    model := u.model.getD car.model,
    year := u.year.getD car.year,
    features := u.features.getD car.features,
    maintenance_history := u.maintenance_history.getD car.maintenance_history,
    location_id := u.location_id.getD car.location_id,
    is_active := u.is_active.getD car.is_active,
    is_available := u.is_available.getD car.is_available,
    updated_at := some now }

/-- `db.query(Customer).filter(Customer.id == customer_id).first()`. -/
def findCustomer (s : List Customer) (cid : String) : Option Customer :=
  s.find? (fun c => c.id == cid)

/-- `db.query(Location).filter(Location.id == location_id).first()`. -/
def findLocation (s : List Location) (lid : String) : Option Location :=
  s.find? (fun l => l.id == lid)

/-- `db.query(Car).filter(Car.id == car_id).first()`. -/
def findCar (s : List Car) (cid : String) : Option Car :=
  s.find? (fun c => c.id == cid)

/-- Handler `update_customer` (`customer_router.py` lines 106-134): 404 when
absent; otherwise the supplied fields are set, `updated_at` refreshed, and
the commit either persists the change or (uniqueness violation, modelled by
`integrityFails`) rolls back into a 409 leaving the store unchanged. -/
def update_customer (s : List Customer) (cid : String) (u : CustomerUpdate)
    (now : Nat) (integrityFails : Bool) : Except HErr Customer × List Customer :=
  match findCustomer s cid with
  | none => (.error { status := 404, detail := "Customer not found" }, s)
  | some c =>
      let c2 := applyCustomerUpdate c u now
      if integrityFails then
        (.error { status := 409, detail := "Email already exists" }, s)
      else
        (.ok c2, s.map (fun x => if x.id == cid then c2 else x))

/-- Handler `update_location` (`location_router.py` lines 206-237). -/
def update_location (s : List Location) (lid : String) (u : LocationUpdate)
    (now : Nat) (integrityFails : Bool) : Except HErr Location × List Location :=
  match findLocation s lid with
  | none => (.error { status := 404, detail := "Location not found" }, s)
  | some l =>
      let l2 := applyLocationUpdate l u now
      if integrityFails then
        (.error { status := 409, detail := "Location update failed" }, s)
      else
        (.ok l2, s.map (fun x => if x.id == lid then l2 else x))

/-- Handler `update_car` (`car_router.py` lines 102-130). -/
def update_car (s : List Car) (cid : String) (u : CarUpdate)
    (now : Nat) (integrityFails : Bool) : Except HErr Car × List Car :=
  match findCar s cid with
  | none => (.error { status := 404, detail := "Car not found" }, s)
  | some c =>
      let c2 := applyCarUpdate c u now
      if integrityFails then
        (.error { status := 409, detail := "Car update failed due to constraint violation" }, s)
      else
        (.ok c2, s.map (fun x => if x.id == cid then c2 else x))

/-- Handler `delete_customer` (`customer_router.py` lines 136-150): 404 when
absent, otherwise `is_active` is cleared, `updated_at` refreshed and the
route answers 204; the record is never removed. -/
def delete_customer (s : List Customer) (cid : String) (now : Nat) :
    Nat × List Customer :=
  match findCustomer s cid with
  | none => (404, s)
  | some c =>
      let c2 := { c with is_active := false, updated_at := some now }
      (204, s.map (fun x => if x.id == cid then c2 else x))

/-- Handler `delete_location` (`location_router.py` lines 255-272). -/
def delete_location (s : List Location) (lid : String) (now : Nat) :
    Nat × List Location :=
  match findLocation s lid with
  | none => (404, s)
  | some l =>
      let l2 := { l with is_active := false, updated_at := some now }
      (204, s.map (fun x => if x.id == lid then l2 else x))

/-- Handler `delete_car` (`car_router.py` lines 132-146). -/
def delete_car (s : List Car) (cid : String) (now : Nat) : Nat × List Car :=
  match findCar s cid with
  | none => (404, s)
  | some c =>
      let c2 := { c with is_active := false, updated_at := some now }
      (204, s.map (fun x => if x.id == cid then c2 else x))

/-- Specification view of the failure list: the 1-based ordinal (as a number,
`t0` rows already seen) and message of every row the validator rejects. -/
def failedNat {α : Type} (v : Row → Except String α) (t0 : Nat) :
    List Row → List (Nat × String)
  | [] => []
  | r :: rest =>
      match v r with
      | .error e => (t0 + 1, e) :: failedNat v (t0 + 1) rest
      | .ok _ => failedNat v (t0 + 1) rest

/-- Specification view of the batched records: the validated records in row
order. -/
def succRecs {α : Type} (v : Row → Except String α) : List Row → List α
  | [] => []
  | r :: rest =>
      match v r with
      | .ok a => a :: succRecs v rest
      | .error _ => succRecs v rest

/-- A latitude/longitude cell pair the coordinate block rejects: one of the
cells is non-numeric, or both parse and one is outside
latitude [-90, 90] / longitude [-180, 180]. -/
def badCoords (lats longs : String) : Bool :=
  match pyFloat? lats, pyFloat? longs with
  | none, _ => true
  | _, none => true
  | some lat, some lon =>
      !(mkRat (-90) 1 ≤ lat && lat ≤ mkRat 90 1
          && mkRat (-180) 1 ≤ lon && lon ≤ mkRat 180 1)

/-- A storage oracle under which every bulk save and the commit succeed. -/
def okOracle : DbOracle :=
  { flushFails := fun _ => false, commitFails := false }

/-- A storage oracle under which the final commit raises (for example a
uniqueness violation surfacing at commit time). -/
def commitFailOracle : DbOracle :=
  { flushFails := fun _ => false, commitFails := true }

/-- A stored customer used to exhibit the updated_at overwrite. -/
def c7Cust : Customer :=
  { id := "c1"
    email := "a@x"
    name := "A"
    phone := none
    address := none
    is_active := true
    verified := false
    preferences := []
    created_at := 0
    updated_at := some 0
    last_login := none }

/-- Every bulk save attempted so far on this session succeeded. -/
def FlushOkInv {α : Type} (o : DbOracle) (db : Db α) : Prop :=
  ∀ k, k < db.flushCount → o.flushFails k = false

theorem bulkSave_ok_spec {α : Type} {o : DbOracle} {recs : List α} {db db2 : Db α}
    (h : Db.bulkSave o recs db = .ok db2) :
    db.poisoned = false ∧ o.flushFails db.flushCount = false ∧
      db2 = { db with pending := db.pending ++ recs, flushCount := db.flushCount + 1 } := by
  unfold Db.bulkSave at h
  split at h
  · cases h
  · split at h
    · cases h
    · cases h
      refine ⟨?_, ?_, rfl⟩ <;> simp_all

theorem bulkSave_error_spec {α : Type} {o : DbOracle} {recs : List α} {db db2 : Db α}
    {e : String} (h : Db.bulkSave o recs db = .error (e, db2)) :
    db2.poisoned = true ∧ db2.committed = db.committed ∧ db2.pending = db.pending := by
  unfold Db.bulkSave at h
  split at h
  · cases h
    simp_all
  · split at h
    · cases h
      simp_all
    · cases h

theorem commit_ok_spec {α : Type} {o : DbOracle} {db db2 : Db α}
    (h : Db.commit o db = .ok db2) :
    db.poisoned = false ∧ o.commitFails = false ∧
      db2 = { db with committed := db.committed ++ db.pending, pending := [] } := by
  unfold Db.commit at h
  split at h
  · cases h
  · split at h
    · cases h
    · cases h
      refine ⟨?_, ?_, rfl⟩ <;> simp_all

theorem commit_error_spec {α : Type} {o : DbOracle} {db db2 : Db α}
    {e : String} (h : Db.commit o db = .error (e, db2)) :
    db2.committed = db.committed := by
  unfold Db.commit at h
  split at h
  · cases h
    rfl
  · split at h
    · cases h
      rfl
    · cases h

theorem importLoop_ok_spec {α : Type} (o : DbOracle) (v : Row → Except String α) :
    ∀ (rows : List Row) (res : ImportResult) (batch : List α) (db : Db α)
      (res2 : ImportResult) (batch2 : List α) (db2 : Db α),
    importLoop o v rows res batch db = (res2, batch2, db2) →
    db2.committed = db.committed
    ∧ (db.poisoned = true → batch ≠ [] → db2.poisoned = true ∧ batch2 ≠ [])
    ∧ (db.poisoned = false →
        res.total = res.successful + res.failed.length + batch.length →
        FlushOkInv o db →
        (db2.poisoned = false
            ∧ res2.total = res2.successful + res2.failed.length + batch2.length
            ∧ FlushOkInv o db2)
          ∨ (db2.poisoned = true ∧ batch2 ≠ [])) := by
  intro rows
  induction rows with
  | nil =>
      intro res batch db res2 batch2 db2 h
      cases h
      exact ⟨rfl, fun hp hb => ⟨hp, hb⟩, fun _ hinv hf => Or.inl ⟨by assumption, hinv, hf⟩⟩
  | cons r rest ih =>
      intro res batch db res2 batch2 db2 h
      simp only [importLoop] at h
      cases hv : v r with
      | error e =>
          rw [hv] at h
          obtain ⟨hcom, hpois, hclean⟩ := ih _ _ _ _ _ _ h
          refine ⟨hcom, hpois, ?_⟩
          intro hp hinv hf
          apply hclean hp ?_ hf
          simp [hinv]
          omega
      | ok rec =>
          rw [hv] at h
          simp only at h
          split at h
          · cases hbs : Db.bulkSave o (batch ++ [rec]) db with
            | ok dbn =>
                rw [hbs] at h
                obtain ⟨hpois0, hflush, hdbn⟩ := bulkSave_ok_spec hbs
                obtain ⟨hcom, hpois, hclean⟩ := ih _ _ _ _ _ _ h
                subst hdbn
                refine ⟨hcom, ?_, ?_⟩
                · intro hp
                  rw [hp] at hpois0
                  cases hpois0
                · intro hp hinv hf
                  apply hclean
                  · simpa using hpois0
                  · simp [hinv]
                    omega
                  · intro k hk
                    simp at hk
                    rcases Nat.lt_succ_iff_lt_or_eq.mp hk with hk' | hk'
                    · exact hf k hk'
                    · rw [hk']
                      exact hflush
            | error p =>
                obtain ⟨e, dbn⟩ := p
                rw [hbs] at h
                obtain ⟨hpois1, hcomn, hpendn⟩ := bulkSave_error_spec hbs
                obtain ⟨hcom, hpois, hclean⟩ := ih _ _ _ _ _ _ h
                refine ⟨hcom.trans hcomn, ?_, ?_⟩
                · intro hp hb
                  exact hpois hpois1 (by simp)
                · intro hp hinv hf
                  exact Or.inr (hpois hpois1 (by simp))
          · obtain ⟨hcom, hpois, hclean⟩ := ih _ _ _ _ _ _ h
            refine ⟨hcom, ?_, ?_⟩
            · intro hp hb
              exact hpois hp (by simp)
            · intro hp hinv hf
              apply hclean hp ?_ hf
              simp [hinv]
              omega

theorem finishImport_ok_spec {α : Type} {o : DbOracle} {res : ImportResult}
    {batch : List α} {db : Db α} {r : ImportResult} {db2 : Db α}
    (h : finishImport o res batch db = (.ok r, db2)) :
    db.poisoned = false ∧ o.commitFails = false
    ∧ r.successful = res.successful + batch.length
    ∧ r.failed = res.failed ∧ r.total = res.total
    ∧ db2.committed = db.committed ++ db.pending ++ batch
    ∧ db2.pending = [] ∧ db2.poisoned = false
    ∧ (FlushOkInv o db → FlushOkInv o db2) := by
  unfold finishImport at h
  by_cases hbe : batch.isEmpty = true
  · rw [if_pos hbe] at h
    rw [List.isEmpty_iff.mp hbe]
    split at h
    · cases h
    · rename_i db4 hcm
      cases h
      obtain ⟨hp, hcf, hdb4⟩ := commit_ok_spec hcm
      subst hdb4
      exact ⟨hp, hcf, by simp, rfl, rfl, by simp, rfl, hp, fun hf => hf⟩
  · rw [if_neg hbe] at h
    split at h
    · cases h
    · rename_i db3 hbs
      obtain ⟨hp, hflush, hdb3⟩ := bulkSave_ok_spec hbs
      split at h
      · cases h
      · rename_i db4 hcm
        cases h
        obtain ⟨hp3, hcf, hdb4⟩ := commit_ok_spec hcm
        subst hdb4
        subst hdb3
        refine ⟨hp, hcf, rfl, rfl, rfl, by simp, rfl, hp, ?_⟩
        intro hf k hk
        simp at hk
        rcases Nat.lt_succ_iff_lt_or_eq.mp hk with hk' | hk'
        · exact hf k hk'
        · rw [hk']
          exact hflush

theorem finishImport_error_spec {α : Type} {o : DbOracle} {res : ImportResult}
    {batch : List α} {db : Db α} {e : HErr} {db2 : Db α}
    (h : finishImport o res batch db = (.error e, db2)) :
    db2.committed = db.committed ∧ db2.pending = [] ∧ db2.poisoned = false := by
  unfold finishImport at h
  by_cases hbe : batch.isEmpty = true
  · rw [if_pos hbe] at h
    split at h
    · rename_i e3 db4 hcm
      cases h
      have hc := commit_error_spec hcm
      exact ⟨hc, rfl, rfl⟩
    · cases h
  · rw [if_neg hbe] at h
    split at h
    · rename_i e3 db3 hbs
      cases h
      obtain ⟨_, hcom, _⟩ := bulkSave_error_spec hbs
      exact ⟨hcom, rfl, rfl⟩
    · rename_i db3 hbs
      obtain ⟨hp, hflush, hdb3⟩ := bulkSave_ok_spec hbs
      split at h
      · rename_i e3 db4 hcm
        cases h
        have hc := commit_error_spec hcm
        refine ⟨hc.trans ?_, rfl, rfl⟩
        rw [hdb3]
      · cases h

theorem runImport_ok_spec {α : Type} {o : DbOracle} {req : List String}
    {v : Row → Except String α} {fns? : Option (List String)} {rows : List Row}
    {store : List α} {r : ImportResult} {db2 : Db α}
    (h : runImport o req v fns? rows (freshSession store) = (.ok r, db2)) :
    r.successful + r.failed.length = r.total
    ∧ o.commitFails = false
    ∧ (∀ k, k < db2.flushCount → o.flushFails k = false) := by
  cases fns? with
  | none =>
      simp only [runImport] at h
      cases h
  | some fns =>
      simp only [runImport] at h
      by_cases hg : (!(req.all fun f => fns.contains f)) = true
      · rw [if_pos hg] at h
        cases h
      · rw [if_neg hg] at h
        rcases hImp : importLoop o v rows {} [] (freshSession store) with ⟨res, batch, dbL⟩
        rw [hImp] at h
        replace h : finishImport o res batch dbL = (.ok r, db2) := h
        obtain ⟨hcom, hpois, hclean⟩ := importLoop_ok_spec o v _ _ _ _ _ _ _ hImp
        obtain ⟨hpL, hcf, hsucc, hfail, htot, _, _, _, hfinv⟩ := finishImport_ok_spec h
        rcases hclean rfl (by simp) (fun k hk => by simp [freshSession] at hk) with
          ⟨hp, hinv, hfl⟩ | ⟨hp, hb⟩
        · refine ⟨?_, hcf, hfinv hfl⟩
          rw [hsucc, hfail, htot, hinv]
          omega
        · rw [hp] at hpL
          cases hpL

theorem runImport_error_spec {α : Type} {o : DbOracle} {req : List String}
    {v : Row → Except String α} {fns? : Option (List String)} {rows : List Row}
    {store : List α} {e : HErr} {db2 : Db α}
    (h : runImport o req v fns? rows (freshSession store) = (.error e, db2)) :
    db2.committed = store ∧ db2.pending = [] := by
  cases fns? with
  | none =>
      simp only [runImport] at h
      cases h
      exact ⟨rfl, rfl⟩
  | some fns =>
      simp only [runImport] at h
      by_cases hg : (!(req.all fun f => fns.contains f)) = true
      · rw [if_pos hg] at h
        cases h
        exact ⟨rfl, rfl⟩
      · rw [if_neg hg] at h
        rcases hImp : importLoop o v rows {} [] (freshSession store) with ⟨res, batch, dbL⟩
        rw [hImp] at h
        replace h : finishImport o res batch dbL = (.error e, db2) := h
        obtain ⟨hcom, _, _⟩ := importLoop_ok_spec o v _ _ _ _ _ _ _ hImp
        obtain ⟨hcom2, hpend2, _⟩ := finishImport_error_spec h
        exact ⟨hcom2.trans hcom, hpend2⟩

theorem bulkSave_noFail {α : Type} {o : DbOracle} (recs : List α) {db : Db α}
    (hp : db.poisoned = false) (hf : o.flushFails db.flushCount = false) :
    Db.bulkSave o recs db =
      .ok { db with pending := db.pending ++ recs, flushCount := db.flushCount + 1 } := by
  unfold Db.bulkSave
  rw [if_neg (by simp [hp]), if_neg (by simp [hf])]

theorem commit_noFail {α : Type} {o : DbOracle} {db : Db α}
    (hp : db.poisoned = false) (hc : o.commitFails = false) :
    Db.commit o db = .ok { db with committed := db.committed ++ db.pending, pending := [] } := by
  unfold Db.commit
  rw [if_neg (by simp [hp]), if_neg (by simp [hc])]

theorem importLoop_noFail {α : Type} {o : DbOracle} (v : Row → Except String α)
    (hf : ∀ k, o.flushFails k = false) :
    ∀ (rows : List Row) (res : ImportResult) (batch : List α) (db : Db α)
      (res2 : ImportResult) (batch2 : List α) (db2 : Db α),
    importLoop o v rows res batch db = (res2, batch2, db2) →
    db.poisoned = false →
    res2.total = res.total + rows.length
    ∧ res2.failed = res.failed ++ (failedNat v res.total rows).map (fun p => (natStr p.1, p.2))
    ∧ res2.successful + batch2.length = res.successful + batch.length + (succRecs v rows).length
    ∧ db2.pending ++ batch2 = db.pending ++ batch ++ succRecs v rows
    ∧ db2.committed = db.committed ∧ db2.poisoned = false := by
  intro rows
  induction rows with
  | nil =>
      intro res batch db res2 batch2 db2 h hp
      cases h
      simp [failedNat, succRecs, hp]
  | cons r rest ih =>
      intro res batch db res2 batch2 db2 h hp
      simp only [importLoop] at h
      cases hv : v r with
      | error e =>
          rw [hv] at h
          obtain ⟨htot, hfail, hsucc, hpend, hcom, hpois⟩ := ih _ _ _ _ _ _ h hp
          simp only at htot hfail hsucc hpend
          refine ⟨?_, ?_, ?_, ?_, hcom, hpois⟩
          · simp only [List.length_cons]
            omega
          · rw [hfail]
            simp [failedNat, hv]
          · rw [hsucc]
            simp [succRecs, hv]
          · rw [hpend]
            simp [succRecs, hv]
      | ok rec =>
          rw [hv] at h
          simp only at h
          split at h
          · rw [bulkSave_noFail _ hp (hf _)] at h
            obtain ⟨htot, hfail, hsucc, hpend, hcom, hpois⟩ := ih _ _ _ _ _ _ h hp
            simp only at htot hfail hsucc hpend hcom
            refine ⟨?_, ?_, ?_, ?_, hcom, hpois⟩
            · simp only [List.length_cons]
              omega
            · rw [hfail]
              simp [failedNat, hv]
            · rw [hsucc]
              simp [succRecs, hv, List.length_append]
              omega
            · rw [hpend]
              simp [succRecs, hv]
          · obtain ⟨htot, hfail, hsucc, hpend, hcom, hpois⟩ := ih _ _ _ _ _ _ h hp
            simp only at htot hfail hsucc hpend
            refine ⟨?_, ?_, ?_, ?_, hcom, hpois⟩
            · simp only [List.length_cons]
              omega
            · rw [hfail]
              simp [failedNat, hv]
            · rw [hsucc]
              simp [succRecs, hv, List.length_append]
              omega
            · rw [hpend]
              simp [succRecs, hv]

theorem runImport_noFail {α : Type} (o : DbOracle) (req : List String)
    (v : Row → Except String α) (fns : List String) (rows : List Row) (store : List α)
    (hf : ∀ k, o.flushFails k = false) (hc : o.commitFails = false)
    (hreq : (req.all fun f => fns.contains f) = true) :
    ∃ n, runImport o req v (some fns) rows (freshSession store) =
      (.ok { successful := (succRecs v rows).length
             failed := (failedNat v 0 rows).map (fun p => (natStr p.1, p.2))
             total := rows.length },
       { committed := store ++ succRecs v rows
         pending := []
         poisoned := false
         flushCount := n }) := by
  rcases hImp : importLoop o v rows {} [] (freshSession store) with ⟨res, batch, dbL⟩
  obtain ⟨htot, hfail, hsucc, hpend, hcom, hpois⟩ :=
    importLoop_noFail v hf _ _ _ _ _ _ _ hImp rfl
  simp only at htot hfail hsucc hpend hcom
  simp only [freshSession] at hcom hpend
  rcases dbL with ⟨dc, dp, dpo, dfc⟩
  simp only at hpend hcom hpois
  subst hcom
  subst hpois
  rcases res with ⟨rs, rf, rt⟩
  simp only at htot hfail hsucc
  have hreq2 : ∀ x ∈ req, x ∈ fns := by simpa using hreq
  by_cases hbe : batch.isEmpty = true
  · have hbatch : batch = [] := List.isEmpty_iff.mp hbe
    subst hbatch
    have hsucc2 : rs = (succRecs v rows).length := by simpa using hsucc
    have hpend2 : dp = succRecs v rows := by simpa using hpend
    refine ⟨dfc, ?_⟩
    simp only [runImport]
    rw [if_neg (by simpa using hreq2), hImp]
    show finishImport o ⟨rs, rf, rt⟩ [] ⟨dc, dp, false, dfc⟩ = _
    unfold finishImport
    simp [commit_noFail, hc, htot, hfail, hsucc2, hpend2]
  · have hsucc2 : rs + batch.length = (succRecs v rows).length := by simpa using hsucc
    have hpend2 : dp ++ batch = succRecs v rows := by simpa using hpend
    refine ⟨dfc + 1, ?_⟩
    simp only [runImport]
    rw [if_neg (by simpa using hreq2), hImp]
    show finishImport o ⟨rs, rf, rt⟩ batch ⟨dc, dp, false, dfc⟩ = _
    unfold finishImport
    rw [if_neg (by simp [hbe])]
    simp [bulkSave_noFail, commit_noFail, hf, hc, htot, hfail, hsucc2, hpend2]

theorem failedNat_pos {α : Type} (v : Row → Except String α) :
    ∀ (rows : List Row) (t0 : Nat) (p : Nat × String),
    p ∈ failedNat v t0 rows → t0 < p.1 := by
  intro rows
  induction rows with
  | nil =>
      intro t0 p hp
      simp [failedNat] at hp
  | cons r rest ih =>
      intro t0 p hp
      unfold failedNat at hp
      cases hv : v r with
      | error e =>
          rw [hv] at hp
          rcases List.mem_cons.mp hp with hp' | hp'
        <;> first
          | (subst hp'; simp)
          | (have h2 := ih _ _ hp'; omega)
      | ok rec =>
          rw [hv] at hp
          have := ih _ _ hp
          omega

theorem failedNat_at {α : Type} (v : Row → Except String α) :
    ∀ (rows : List Row) (i t0 : Nat) (r : Row) (e : String),
    rows.get? i = some r → v r = .error e →
    (t0 + i + 1, e) ∈ failedNat v t0 rows
    ∧ (failedNat v t0 rows).countP (fun p => p.1 == t0 + i + 1) = 1 := by
  intro rows
  induction rows with
  | nil =>
      intro i t0 r e hg hv
      simp at hg
  | cons r0 rest ih =>
      intro i t0 r e hg hv
      cases i with
      | zero =>
          simp at hg
          subst hg
          unfold failedNat
          rw [hv]
          constructor
          · simp
          · rw [List.countP_cons]
            have hz : (failedNat v (t0 + 1) rest).countP (fun p => p.1 == t0 + 0 + 1) = 0 := by
              rw [List.countP_eq_zero]
              intro p hp
              have := failedNat_pos v rest (t0 + 1) p hp
              simp
              omega
            rw [hz]
            simp
      | succ i2 =>
          simp only [List.get?_cons_succ] at hg
          unfold failedNat
          cases hv0 : v r0 with
          | error e0 =>
              obtain ⟨hmem, hcount⟩ := ih i2 (t0 + 1) r e hg hv
              constructor
              · apply List.mem_cons_of_mem
                have harith : t0 + 1 + i2 + 1 = t0 + (i2 + 1) + 1 := by omega
                rw [harith] at hmem
                exact hmem
              · rw [List.countP_cons]
                have harith : t0 + 1 + i2 + 1 = t0 + (i2 + 1) + 1 := by omega
                rw [harith] at hcount
                rw [hcount]
                simp
          | ok rec =>
              obtain ⟨hmem, hcount⟩ := ih i2 (t0 + 1) r e hg hv
              have harith : t0 + 1 + i2 + 1 = t0 + (i2 + 1) + 1 := by omega
              rw [harith] at hmem hcount
              exact ⟨hmem, hcount⟩

theorem succRecs_mem {α : Type} (v : Row → Except String α) :
    ∀ (rows : List Row) (i : Nat) (r : Row) (rec : α),
    rows.get? i = some r → v r = .ok rec → rec ∈ succRecs v rows := by
  intro rows
  induction rows with
  | nil =>
      intro i r rec hg hv
      simp at hg
  | cons r0 rest ih =>
      intro i r rec hg hv
      cases i with
      | zero =>
          simp at hg
          subst hg
          unfold succRecs
          rw [hv]
          simp
      | succ i2 =>
          simp only [List.get?_cons_succ] at hg
          unfold succRecs
          cases hv0 : v r0 with
          | error e0 => exact ih i2 r rec hg hv
          | ok rec0 => exact List.mem_cons_of_mem _ (ih i2 r rec hg hv)

theorem succRecs_cons_ok {α : Type} {v : Row → Except String α} {r : Row}
    {rest : List Row} {rec : α} (hv : v r = .ok rec) :
    succRecs v (r :: rest) = rec :: succRecs v rest := by
  simp only [succRecs]
  rw [hv]

theorem succRecs_cons_error {α : Type} {v : Row → Except String α} {r : Row}
    {rest : List Row} {e : String} (hv : v r = .error e) :
    succRecs v (r :: rest) = succRecs v rest := by
  simp only [succRecs]
  rw [hv]

theorem succRecs_split {α : Type} (v : Row → Except String α) :
    ∀ (rows : List Row) (i : Nat) (r : Row) (e : String),
    rows.get? i = some r → v r = .error e →
    succRecs v rows = succRecs v (rows.take i) ++ succRecs v (rows.drop (i + 1)) := by
  intro rows
  induction rows with
  | nil =>
      intro i r e hg hv
      simp at hg
  | cons r0 rest ih =>
      intro i r e hg hv
      cases i with
      | zero =>
          simp at hg
          subst hg
          simp only [List.take_zero, List.drop_succ_cons, List.drop_zero]
          rw [succRecs_cons_error hv]
          simp [succRecs]
      | succ i2 =>
          simp only [List.get?_cons_succ] at hg
          simp only [List.take_succ_cons, List.drop_succ_cons]
          cases hv0 : v r0 with
          | error e0 =>
              rw [succRecs_cons_error hv0, succRecs_cons_error hv0]
              exact ih i2 r e hg hv
          | ok rec0 =>
              rw [succRecs_cons_ok hv0, succRecs_cons_ok hv0]
              rw [ih i2 r e hg hv]
              simp

theorem except_bind_ok {ε α β : Type} (a : α) (f : α → Except ε β) :
    ((Except.ok a : Except ε α) >>= f) = f a := rfl

theorem except_bind_error {ε α β : Type} (e : ε) (f : α → Except ε β) :
    ((Except.error e : Except ε α) >>= f) = .error e := rfl

/-- C1: for every import (customer or location) that completes and returns a
tally, the returned `ImportResult` satisfies
`successful + failed.length = total`: each data row increments `total`
exactly once and lands either in a successfully flushed batch (counted by
`successful`) or in `failed`, and a run in which any row was both recorded
as failed and flushed (the mid-stream flush caught by the per-row handler)
cannot reach a tally, because the failed flush poisons the session and the
non-empty remaining batch makes the final flush raise. -/
theorem claim_C1_tally :
    (∀ (o : DbOracle) (fns? : Option (List String)) (rows : List Row)
        (store : List CustomerRec) (r : ImportResult) (db2 : Db CustomerRec),
      import_customers_from_tsv o fns? rows (freshSession store) = (.ok r, db2) →
      r.successful + r.failed.length = r.total)
    ∧ (∀ (o : DbOracle) (fns? : Option (List String)) (rows : List Row)
        (store : List LocationRec) (r : ImportResult) (db2 : Db LocationRec),
      import_locations_from_tsv o fns? rows (freshSession store) = (.ok r, db2) →
      r.successful + r.failed.length = r.total) :=
  ⟨fun _ _ _ _ _ _ h => (runImport_ok_spec h).1,
   fun _ _ _ _ _ _ h => (runImport_ok_spec h).1⟩

/-- C1 witness: a concrete two-row customer import (one valid row, one short
row whose email cell is `None`) returns the tally 1 + 1 = 2. -/
theorem claim_C1_tally_witness :
    import_customers_from_tsv okOracle (some ["name", "email"])
      [dictRow ["name", "email"] ["Al", "a@x"], dictRow ["name", "email"] ["Bo"]]
      (freshSession []) =
      (.ok { successful := 1
             failed := [("2", "AttributeError: NoneType object has no attribute strip")]
             total := 2 },
       { committed := [{ name := "Al", email := "a@x", phone := none, address := none,
                         preferences := some "\x7b\x7d" }]
         pending := []
         poisoned := false
         flushCount := 1 })
    ∧ (1 : Nat) + 1 = 2 := by
  constructor
  · rfl
  · exact claim_C1_tally.1 okOracle (some ["name", "email"])
      [dictRow ["name", "email"] ["Al", "a@x"], dictRow ["name", "email"] ["Bo"]]
      [] _ _ rfl

/-- C2: storage failures are atomic at request level.  Contrapositive half:
a returned tally implies the commit did not fail and every bulk save the
request performed succeeded.  Error half: whenever the request surfaces an
error, the session was rolled back — the committed store is exactly what it
was before the request and no uncommitted write survives.  The caller sees
an `Except` value, hence never both a tally and an error. -/
theorem claim_C2_storage_atomicity :
    (∀ (o : DbOracle) (fns? : Option (List String)) (rows : List Row)
        (store : List CustomerRec) (r : ImportResult) (db2 : Db CustomerRec),
      import_customers_from_tsv o fns? rows (freshSession store) = (.ok r, db2) →
      o.commitFails = false ∧ ∀ k, k < db2.flushCount → o.flushFails k = false)
    ∧ (∀ (o : DbOracle) (fns? : Option (List String)) (rows : List Row)
        (store : List CustomerRec) (e : HErr) (db2 : Db CustomerRec),
      import_customers_from_tsv o fns? rows (freshSession store) = (.error e, db2) →
      db2.committed = store ∧ db2.pending = [])
    ∧ (∀ (o : DbOracle) (fns? : Option (List String)) (rows : List Row)
        (store : List LocationRec) (r : ImportResult) (db2 : Db LocationRec),
      import_locations_from_tsv o fns? rows (freshSession store) = (.ok r, db2) →
      o.commitFails = false ∧ ∀ k, k < db2.flushCount → o.flushFails k = false)
    ∧ (∀ (o : DbOracle) (fns? : Option (List String)) (rows : List Row)
        (store : List LocationRec) (e : HErr) (db2 : Db LocationRec),
      import_locations_from_tsv o fns? rows (freshSession store) = (.error e, db2) →
      db2.committed = store ∧ db2.pending = []) :=
  ⟨fun _ _ _ _ _ _ h => ⟨(runImport_ok_spec h).2.1, (runImport_ok_spec h).2.2⟩,
   fun _ _ _ _ _ _ h => runImport_error_spec h,
   fun _ _ _ _ _ _ h => ⟨(runImport_ok_spec h).2.1, (runImport_ok_spec h).2.2⟩,
   fun _ _ _ _ _ _ h => runImport_error_spec h⟩

/-- C2 witness: under a commit-failing oracle, a customer import with one
valid row on a store holding one prior record surfaces an error and leaves
the committed store unchanged with nothing pending; under the all-ok oracle
a tally implies the commit did not fail. -/
theorem claim_C2_storage_atomicity_witness :
    (let store : List CustomerRec :=
      [{ name := "Old", email := "o@x", phone := none, address := none, preferences := none }]
     let out := import_customers_from_tsv commitFailOracle (some ["name", "email"])
      [dictRow ["name", "email"] ["Al", "a@x"]] (freshSession store)
     out.2.committed = store ∧ out.2.pending = [])
    ∧ commitFailOracle.commitFails = true
    ∧ okOracle.commitFails = false := by
  refine ⟨?_, rfl, ?_⟩
  · exact claim_C2_storage_atomicity.2.1 commitFailOracle (some ["name", "email"])
      [dictRow ["name", "email"] ["Al", "a@x"]]
      [{ name := "Old", email := "o@x", phone := none, address := none, preferences := none }]
      _ _ rfl
  · exact (claim_C2_storage_atomicity.1 okOracle (some ["name", "email"])
      [dictRow ["name", "email"] ["Al", "a@x"]] [] _ _ rfl).1

/-- C3: an import whose header lacks a required column (name/email for
customers; name/address/latitude/longitude for locations) aborts before the
row loop: the caller receives a request-level error (never a tally) and the
session is exactly the fresh session — nothing was persisted, nothing is
pending, and no flush was attempted, so no data row was processed. -/
theorem claim_C3_missing_columns_abort :
    (∀ (o : DbOracle) (fns : List String) (rows : List Row) (store : List CustomerRec),
      ¬("name" ∈ fns ∧ "email" ∈ fns) →
      import_customers_from_tsv o (some fns) rows (freshSession store) =
        (.error { status := 500, detail := "400: Missing required fields" },
          freshSession store))
    ∧ (∀ (o : DbOracle) (fns : List String) (rows : List Row) (store : List LocationRec),
      ¬("name" ∈ fns ∧ "address" ∈ fns ∧ "latitude" ∈ fns ∧ "longitude" ∈ fns) →
      import_locations_from_tsv o (some fns) rows (freshSession store) =
        (.error { status := 500, detail := "400: Missing required fields" },
          freshSession store)) := by
  constructor
  · intro o fns rows store hmiss
    have hall : (!(customerRequired.all fun f => fns.contains f)) = true := by
      simp [customerRequired]
      tauto
    show runImport o customerRequired validateCustomerRow (some fns) rows (freshSession store) = _
    simp only [runImport]
    rw [if_pos hall]
    rfl
  · intro o fns rows store hmiss
    have hall : (!(locationRequired.all fun f => fns.contains f)) = true := by
      simp [locationRequired]
      tauto
    show runImport o locationRequired validateLocationRow (some fns) rows (freshSession store) = _
    simp only [runImport]
    rw [if_pos hall]
    rfl

/-- C3 witness: a customer header holding only name, and a location header
missing longitude, both abort with the request-level error on the untouched
fresh session. -/
theorem claim_C3_missing_columns_abort_witness :
    import_customers_from_tsv okOracle (some ["name"])
        [dictRow ["name"] ["Al"]] (freshSession []) =
      (.error { status := 500, detail := "400: Missing required fields" },
        freshSession ([] : List CustomerRec))
    ∧ import_locations_from_tsv okOracle (some ["name", "address", "latitude"])
        [] (freshSession []) =
      (.error { status := 500, detail := "400: Missing required fields" },
        freshSession ([] : List LocationRec)) := by
  constructor
  · exact claim_C3_missing_columns_abort.1 okOracle ["name"]
      [dictRow ["name"] ["Al"]] [] (by simp)
  · exact claim_C3_missing_columns_abort.2 okOracle ["name", "address", "latitude"]
      [] [] (by simp)

/-- C10: for a zero-byte uploaded `.tsv` body the import never returns a
tally: `csv.DictReader` yields `None` fieldnames on empty input, the
required-columns subset test raises a `TypeError` on it, and the blanket
handler rolls the session back and surfaces an HTTP 500 — shown here both at
the endpoint on empty content and at the importer body for `None`
fieldnames, for customers and for locations. -/
theorem claim_C10_empty_upload :
    dictReaderFieldnames "" = none
    ∧ (∀ (o : DbOracle) (store : List CustomerRec),
      import_customers o "upload.tsv" "" store =
        (.error { status := 500,
                  detail := "TypeError: argument of type NoneType is not iterable" },
          freshSession store))
    ∧ (∀ (o : DbOracle) (store : List LocationRec),
      import_locations o "upload.tsv" "" store =
        (.error { status := 500,
                  detail := "TypeError: argument of type NoneType is not iterable" },
          freshSession store))
    ∧ (∀ (o : DbOracle) (rows : List Row) (store : List CustomerRec),
      import_customers_from_tsv o none rows (freshSession store) =
        (.error { status := 500,
                  detail := "TypeError: argument of type NoneType is not iterable" },
          freshSession store))
    ∧ (∀ (o : DbOracle) (rows : List Row) (store : List LocationRec),
      import_locations_from_tsv o none rows (freshSession store) =
        (.error { status := 500,
                  detail := "TypeError: argument of type NoneType is not iterable" },
          freshSession store)) :=
  ⟨rfl, fun _ _ => rfl, fun _ _ => rfl, fun _ _ _ => rfl, fun _ _ _ => rfl⟩

/-- C4 evidence: the filename-extension check does yield a 400 (it is raised
outside the blanket handler), but a header missing the required email column
is surfaced as HTTP 500 — the deliberately raised 400 `HTTPException` of
`customer_router.py` line 175 is swallowed by `except Exception` at line 216
and re-raised as 500 (its detail still carries the intended 400) — and a
storage constraint violation during the import commit is likewise surfaced
as 500, not 409. -/
theorem claim_C4_status_codes_bug :
    (import_customers okOracle "c.txt" "name\temail\nAl\ta@x" []).1 =
      .error { status := 400, detail := "Only TSV files are supported" }
    ∧ (import_customers okOracle "c.tsv" "name\nAl" []).1 =
      .error { status := 500, detail := "400: Missing required fields" }
    ∧ (import_customers commitFailOracle "c.tsv" "name\temail\nAl\ta@x" []).1 =
      .error { status := 500, detail := "commit failed" }
    ∧ (import_locations okOracle "l.tsv" "name\naddr" []).1 =
      .error { status := 500, detail := "400: Missing required fields" } :=
  ⟨rfl, rfl, rfl, rfl⟩

theorem except_ok_of_bind {ε α β : Type} {x : Except ε α} {f : α → Except ε β} {b : β}
    (h : (x >>= f) = .ok b) : ∃ a, x = .ok a ∧ f a = .ok b := by
  cases x with
  | error e =>
      rw [except_bind_error] at h
      cases h
  | ok a => exact ⟨a, rfl, h⟩

theorem validateLocationRow_ok_inv {r : Row} {rec : LocationRec}
    (h : validateLocationRow r = .ok rec) :
    (∀ s, rowGetD r "is_pickup_location" (some "true") = some s →
        rec.is_pickup_location = (pyLower s == "true"))
    ∧ (rowItem? r "is_pickup_location" = none → rec.is_pickup_location = true)
    ∧ (∀ s, rowGetD r "is_dropoff_location" (some "true") = some s →
        rec.is_dropoff_location = (pyLower s == "true"))
    ∧ (rowItem? r "is_dropoff_location" = none → rec.is_dropoff_location = true) := by
  unfold validateLocationRow at h
  obtain ⟨latCell, h1, h⟩ := except_ok_of_bind h
  obtain ⟨longCell, h2, h⟩ := except_ok_of_bind h
  obtain ⟨lat, h3, h⟩ := except_ok_of_bind h
  obtain ⟨lon, h4, h⟩ := except_ok_of_bind h
  by_cases h5 : (!(mkRat (-90) 1 ≤ lat && lat ≤ mkRat 90 1
      && mkRat (-180) 1 ≤ lon && lon ≤ mkRat 180 1)) = true
  · rw [if_pos h5] at h
    cases h
  · rw [if_neg h5] at h
    obtain ⟨isPickup, h6, h⟩ := except_ok_of_bind h
    obtain ⟨isDropoff, h7, h⟩ := except_ok_of_bind h
    obtain ⟨nameCell, h8, h⟩ := except_ok_of_bind h
    obtain ⟨name, h9, h⟩ := except_ok_of_bind h
    obtain ⟨addrCell, h10, h⟩ := except_ok_of_bind h
    obtain ⟨address, h11, h⟩ := except_ok_of_bind h
    cases h
    refine ⟨?_, ?_, ?_, ?_⟩
    · intro s hs
      rw [hs] at h6
      simp only [pyBool] at h6
      cases h6
      rfl
    · intro hn
      have hval : rowGetD r "is_pickup_location" (some "true") = some "true" := by
        simp [rowGetD, hn]
      rw [hval] at h6
      simp only [pyBool] at h6
      cases h6
      rfl
    · intro s hs
      rw [hs] at h7
      simp only [pyBool] at h7
      cases h7
      rfl
    · intro hn
      have hval : rowGetD r "is_dropoff_location" (some "true") = some "true" := by
        simp [rowGetD, hn]
      rw [hval] at h7
      simp only [pyBool] at h7
      cases h7
      rfl

/-- C6: for every location-import row the validator accepts, the boolean
columns evaluate to true exactly when the present cell lower-cases to the
token true; any other present string yields false without a row error (the
conversion of a present string never raises, first conjunct), and an absent
column defaults to true. -/
theorem claim_C6_bool_columns :
    (∀ s : String, pyBool (some s) = .ok (pyLower s == "true"))
    ∧ (∀ (r : Row) (rec : LocationRec), validateLocationRow r = .ok rec →
        ((∀ s, rowGetD r "is_pickup_location" (some "true") = some s →
            rec.is_pickup_location = (pyLower s == "true"))
         ∧ (rowItem? r "is_pickup_location" = none → rec.is_pickup_location = true)
         ∧ (∀ s, rowGetD r "is_dropoff_location" (some "true") = some s →
            rec.is_dropoff_location = (pyLower s == "true"))
         ∧ (rowItem? r "is_dropoff_location" = none → rec.is_dropoff_location = true))) :=
  ⟨fun _ => rfl, fun _ _ h => validateLocationRow_ok_inv h⟩

/-- C6 witness: a concrete row with pickup cell TRuE (accepted
case-insensitively) and dropoff cell yes (silently false), and a row without
either column (both default true). -/
theorem claim_C6_bool_columns_witness :
    (∃ rec : LocationRec,
      validateLocationRow (dictRow ["name", "address", "latitude", "longitude",
          "is_pickup_location", "is_dropoff_location"]
        ["G", "Main 1", "10.0", "20.0", "TRuE", "yes"]) = .ok rec
      ∧ rec.is_pickup_location = true ∧ rec.is_dropoff_location = false)
    ∧ (∃ rec : LocationRec,
      validateLocationRow (dictRow ["name", "address", "latitude", "longitude"]
        ["G", "Main 1", "10.0", "20.0"]) = .ok rec
      ∧ rec.is_pickup_location = true ∧ rec.is_dropoff_location = true) := by
  constructor
  · refine ⟨{ name := "G"
              address := "Main 1"
              latitude := mkRat 10 1
              longitude := mkRat 20 1
              is_pickup_location := true
              is_dropoff_location := false }, rfl, ?_, ?_⟩
    · exact (claim_C6_bool_columns.2 (dictRow ["name", "address", "latitude",
          "longitude", "is_pickup_location", "is_dropoff_location"]
          ["G", "Main 1", "10.0", "20.0", "TRuE", "yes"]) _ rfl).1 "TRuE" rfl
    · exact (claim_C6_bool_columns.2 (dictRow ["name", "address", "latitude",
          "longitude", "is_pickup_location", "is_dropoff_location"]
          ["G", "Main 1", "10.0", "20.0", "TRuE", "yes"]) _ rfl).2.2.1 "yes" rfl
  · refine ⟨{ name := "G"
              address := "Main 1"
              latitude := mkRat 10 1
              longitude := mkRat 20 1
              is_pickup_location := true
              is_dropoff_location := true }, rfl, ?_, ?_⟩
    · exact (claim_C6_bool_columns.2 (dictRow ["name", "address", "latitude",
          "longitude"] ["G", "Main 1", "10.0", "20.0"]) _ rfl).2.1 rfl
    · exact (claim_C6_bool_columns.2 (dictRow ["name", "address", "latitude",
          "longitude"] ["G", "Main 1", "10.0", "20.0"]) _ rfl).2.2.2 rfl

theorem validateLocationRow_badCoords {r : Row} {lats longs : String}
    (hlat : rowItem? r "latitude" = some (some lats))
    (hlong : rowItem? r "longitude" = some (some longs))
    (hbad : badCoords lats longs = true) :
    validateLocationRow r =
      .error ("Invalid coordinates: lat=" ++ lats ++ ", long=" ++ longs) := by
  unfold validateLocationRow
  have h1 : keyItem r "latitude" = .ok (some lats) := by simp [keyItem, hlat]
  have h2 : keyItem r "longitude" = .ok (some longs) := by simp [keyItem, hlong]
  rw [h1, except_bind_ok, h2, except_bind_ok]
  unfold badCoords at hbad
  cases hpl : pyFloat? lats with
  | none =>
      simp [floatCell, hpl, coordErr, pyShow, except_bind_error, except_bind_ok]
  | some lat =>
      rw [hpl] at hbad
      cases hpo : pyFloat? longs with
      | none =>
          simp [floatCell, hpl, hpo, coordErr, pyShow, except_bind_error, except_bind_ok]
      | some lon =>
          rw [hpo] at hbad
          simp only [floatCell, hpl, hpo, except_bind_ok]
          rw [if_pos hbad]
          simp [coordErr, pyShow]

/-- C5: in a location import with no storage failure and a valid header, a
data row whose latitude or longitude cell is non-numeric or out of range
contributes exactly one `failed` entry — carrying the 1-based ordinal (the
result stores its decimal rendering) and the raw coordinate strings — that
row contributes no persisted record (the committed store decomposes into the
validated records of the rows before and after it), and every valid row of
the same file is still persisted. -/
theorem claim_C5_bad_coordinate_rows
    (o : DbOracle) (fns : List String) (rows : List Row) (store : List LocationRec)
    (i : Nat) (r : Row) (lats longs : String)
    (hf : ∀ k, o.flushFails k = false) (hc : o.commitFails = false)
    (hreq : (locationRequired.all fun f => fns.contains f) = true)
    (hrow : rows.get? i = some r)
    (hlat : rowItem? r "latitude" = some (some lats))
    (hlong : rowItem? r "longitude" = some (some longs))
    (hbad : badCoords lats longs = true) :
    ∃ (res : ImportResult) (db2 : Db LocationRec),
      import_locations_from_tsv o (some fns) rows (freshSession store) = (.ok res, db2)
      ∧ res.failed =
          (failedNat validateLocationRow 0 rows).map (fun p => (natStr p.1, p.2))
      ∧ (i + 1, "Invalid coordinates: lat=" ++ lats ++ ", long=" ++ longs)
          ∈ failedNat validateLocationRow 0 rows
      ∧ (failedNat validateLocationRow 0 rows).countP (fun p => p.1 == i + 1) = 1
      ∧ db2.committed =
          store ++ (succRecs validateLocationRow (rows.take i)
            ++ succRecs validateLocationRow (rows.drop (i + 1)))
      ∧ (∀ (j : Nat) (r2 : Row) (rec : LocationRec), rows.get? j = some r2 →
          validateLocationRow r2 = .ok rec → rec ∈ db2.committed) := by
  have hverr := validateLocationRow_badCoords hlat hlong hbad
  obtain ⟨n, heq⟩ :=
    runImport_noFail o locationRequired validateLocationRow fns rows store hf hc hreq
  refine ⟨_, _, heq, rfl, ?_, ?_, ?_, ?_⟩
  · have hm := (failedNat_at validateLocationRow rows i 0 r _ hrow hverr).1
    simpa using hm
  · have hcnt := (failedNat_at validateLocationRow rows i 0 r _ hrow hverr).2
    simpa using hcnt
  · show store ++ succRecs validateLocationRow rows = _
    rw [succRecs_split validateLocationRow rows i r _ hrow hverr]
  · intro j r2 rec hj hv
    show rec ∈ store ++ succRecs validateLocationRow rows
    exact List.mem_append_right _ (succRecs_mem validateLocationRow rows j r2 rec hj hv)

/-- C5 witness: a two-row file whose second row has latitude 95.0 produces
exactly one failure entry for ordinal 2 carrying the raw strings, persists
the first row, and skips the second. -/
theorem claim_C5_bad_coordinate_rows_witness :
    ∃ (res : ImportResult) (db2 : Db LocationRec),
      import_locations_from_tsv okOracle (some ["name", "address", "latitude", "longitude"])
        [dictRow ["name", "address", "latitude", "longitude"] ["A", "Addr 1", "10.0", "20.0"],
         dictRow ["name", "address", "latitude", "longitude"] ["B", "Addr 2", "95.0", "18.1"]]
        (freshSession []) = (.ok res, db2)
      ∧ res.failed =
          (failedNat validateLocationRow 0
            [dictRow ["name", "address", "latitude", "longitude"] ["A", "Addr 1", "10.0", "20.0"],
             dictRow ["name", "address", "latitude", "longitude"] ["B", "Addr 2", "95.0", "18.1"]]).map
            (fun p => (natStr p.1, p.2))
      ∧ (1 + 1, "Invalid coordinates: lat=" ++ "95.0" ++ ", long=" ++ "18.1")
          ∈ failedNat validateLocationRow 0
            [dictRow ["name", "address", "latitude", "longitude"] ["A", "Addr 1", "10.0", "20.0"],
             dictRow ["name", "address", "latitude", "longitude"] ["B", "Addr 2", "95.0", "18.1"]]
      ∧ (failedNat validateLocationRow 0
            [dictRow ["name", "address", "latitude", "longitude"] ["A", "Addr 1", "10.0", "20.0"],
             dictRow ["name", "address", "latitude", "longitude"] ["B", "Addr 2", "95.0", "18.1"]]).countP
            (fun p => p.1 == 1 + 1) = 1
      ∧ db2.committed =
          [] ++ (succRecs validateLocationRow
              ([dictRow ["name", "address", "latitude", "longitude"] ["A", "Addr 1", "10.0", "20.0"],
                dictRow ["name", "address", "latitude", "longitude"] ["B", "Addr 2", "95.0", "18.1"]].take 1)
            ++ succRecs validateLocationRow
              ([dictRow ["name", "address", "latitude", "longitude"] ["A", "Addr 1", "10.0", "20.0"],
                dictRow ["name", "address", "latitude", "longitude"] ["B", "Addr 2", "95.0", "18.1"]].drop (1 + 1)))
      ∧ (∀ (j : Nat) (r2 : Row) (rec : LocationRec),
          [dictRow ["name", "address", "latitude", "longitude"] ["A", "Addr 1", "10.0", "20.0"],
           dictRow ["name", "address", "latitude", "longitude"] ["B", "Addr 2", "95.0", "18.1"]].get? j = some r2 →
          validateLocationRow r2 = .ok rec → rec ∈ db2.committed) :=
  claim_C5_bad_coordinate_rows okOracle ["name", "address", "latitude", "longitude"]
    [dictRow ["name", "address", "latitude", "longitude"] ["A", "Addr 1", "10.0", "20.0"],
     dictRow ["name", "address", "latitude", "longitude"] ["B", "Addr 2", "95.0", "18.1"]]
    [] 1 (dictRow ["name", "address", "latitude", "longitude"] ["B", "Addr 2", "95.0", "18.1"])
    "95.0" "18.1" (fun _ => rfl) rfl (by decide) rfl rfl rfl (by decide)

/-- C9 counterexample: a data row of a file whose header declares a phone
column but whose line is short (phone cell is `None`) has name and email
present as non-None strings, yet customer row validation raises
(`None.strip()`) and the row is not batched — refuting the claim that such
rows always validate. -/
theorem claim_C9_counterexample :
    rowItem? (dictRow ["name", "email", "phone"] ["Bob", "b@x"]) "name" = some (some "Bob")
    ∧ rowItem? (dictRow ["name", "email", "phone"] ["Bob", "b@x"]) "email" = some (some "b@x")
    ∧ validateCustomerRow (dictRow ["name", "email", "phone"] ["Bob", "b@x"]) =
        .error "AttributeError: NoneType object has no attribute strip" :=
  ⟨rfl, rfl, rfl⟩

/-- C9 (amended): customer row validation applies none of the schema
constraints of the JSON create endpoint — for every data row whose name and
email cells are present (non-None) strings and whose phone and address cells
are likewise non-None wherever those columns appear in the header,
validation succeeds regardless of email format, emptiness or length, and the
resulting record is batched. -/
theorem claim_C9_no_schema_validation_on_import :
    ∀ (rows : List Row) (j : Nat) (r : Row) (ns es : String),
    rows.get? j = some r →
    rowItem? r "name" = some (some ns) →
    rowItem? r "email" = some (some es) →
    (rowItem? r "phone" = none ∨ ∃ s, rowItem? r "phone" = some (some s)) →
    (rowItem? r "address" = none ∨ ∃ s, rowItem? r "address" = some (some s)) →
    ∃ rec : CustomerRec, validateCustomerRow r = .ok rec
      ∧ rec.name = pyStrip ns ∧ rec.email = pyStrip es
      ∧ rec ∈ succRecs validateCustomerRow rows := by
  intro rows j r ns es hj hn he hp ha
  have hkn : keyItem r "name" = .ok (some ns) := by simp [keyItem, hn]
  have hke : keyItem r "email" = .ok (some es) := by simp [keyItem, he]
  have hph : ∃ sp, rowGetD r "phone" (some "") = some sp := by
    rcases hp with hp | ⟨s, hp⟩
    · exact ⟨"", by simp [rowGetD, hp]⟩
    · exact ⟨s, by simp [rowGetD, hp]⟩
  have had : ∃ sa, rowGetD r "address" (some "") = some sa := by
    rcases ha with ha | ⟨s, ha⟩
    · exact ⟨"", by simp [rowGetD, ha]⟩
    · exact ⟨s, by simp [rowGetD, ha]⟩
  obtain ⟨sp, hph⟩ := hph
  obtain ⟨sa, had⟩ := had
  have hval : validateCustomerRow r =
      .ok { name := pyStrip ns
            email := pyStrip es
            phone := orNone (pyStrip sp)
            address := orNone (pyStrip sa)
            preferences := parse_preferences (rowGetD r "preferences" (some "\x7b\x7d")) } := by
    unfold validateCustomerRow
    rw [hkn, except_bind_ok]
    simp only [cellStrip, except_bind_ok]
    rw [hke, except_bind_ok]
    simp only [cellStrip, except_bind_ok]
    rw [hph]
    simp only [cellStrip, except_bind_ok]
    rw [had]
    simp only [cellStrip, except_bind_ok]
  exact ⟨_, hval, rfl, rfl, succRecs_mem _ rows j r _ hj hval⟩

/-- C9 witness: the email not-an-email is accepted and the record batched. -/
theorem claim_C9_no_schema_validation_on_import_witness :
    ∃ rec : CustomerRec,
      validateCustomerRow (dictRow ["name", "email"] ["Bob", "not-an-email"]) = .ok rec
      ∧ rec.name = pyStrip "Bob" ∧ rec.email = pyStrip "not-an-email"
      ∧ rec ∈ succRecs validateCustomerRow [dictRow ["name", "email"] ["Bob", "not-an-email"]] :=
  claim_C9_no_schema_validation_on_import
    [dictRow ["name", "email"] ["Bob", "not-an-email"]] 0
    (dictRow ["name", "email"] ["Bob", "not-an-email"]) "Bob" "not-an-email"
    rfl rfl rfl (Or.inl rfl) (Or.inl rfl)

/-- C7 counterexample: a PUT whose payload supplies no field at all (every
field of the update object is unset) still overwrites `updated_at` —
`updated_at = datetime.utcnow()` runs unconditionally — so not every field
the caller did not supply retains its prior value. -/
theorem claim_C7_counterexample :
    (update_customer [c7Cust] "c1" {} 1 false).1 =
      .ok { c7Cust with updated_at := some 1 }
    ∧ ({ c7Cust with updated_at := some 1 } : Customer).updated_at ≠ c7Cust.updated_at :=
  ⟨rfl, by decide⟩

/-- C7 (amended): for every partial update (PUT) of a customer, location or
car on an existing record that commits, every caller-settable field the
caller did not supply retains its prior value, the identity and creation
fields are untouched — and the system-managed `updated_at` timestamp is
always refreshed to the request time (the one field outside the caller
contract). -/
theorem claim_C7_partial_update_frame :
    (∀ (s : List Customer) (cid : String) (u : CustomerUpdate) (now : Nat) (c c2 : Customer),
      findCustomer s cid = some c →
      (update_customer s cid u now false).1 = .ok c2 →
      (u.name = none → c2.name = c.name)
      ∧ (u.email = none → c2.email = c.email)
      ∧ (u.phone = none → c2.phone = c.phone)
      ∧ (u.address = none → c2.address = c.address)
      ∧ (u.preferences = none → c2.preferences = c.preferences)
      ∧ (u.is_active = none → c2.is_active = c.is_active)
      ∧ (u.verified = none → c2.verified = c.verified)
      ∧ c2.id = c.id ∧ c2.created_at = c.created_at ∧ c2.last_login = c.last_login
      ∧ c2.updated_at = some now)
    ∧ (∀ (s : List Location) (lid : String) (u : LocationUpdate) (now : Nat) (l l2 : Location),
      findLocation s lid = some l →
      (update_location s lid u now false).1 = .ok l2 →
      (u.name = none → l2.name = l.name)
      ∧ (u.address = none → l2.address = l.address)
      ∧ (u.latitude = none → l2.latitude = l.latitude)
      ∧ (u.longitude = none → l2.longitude = l.longitude)
      ∧ (u.is_pickup_location = none → l2.is_pickup_location = l.is_pickup_location)
      ∧ (u.is_dropoff_location = none → l2.is_dropoff_location = l.is_dropoff_location)
      ∧ (u.is_active = none → l2.is_active = l.is_active)
      ∧ l2.id = l.id ∧ l2.created_at = l.created_at
      ∧ l2.updated_at = some now)
    ∧ (∀ (s : List Car) (cid : String) (u : CarUpdate) (now : Nat) (c c2 : Car),
      findCar s cid = some c →
      (update_car s cid u now false).1 = .ok c2 →
      (u.license_plate = none → c2.license_plate = c.license_plate)
      ∧ (u.vin = none → c2.vin = c.vin)
      ∧ (u.make = none → c2.make = c.make)
      ∧ (u.model = none → c2.model = c.model)
      ∧ (u.year = none → c2.year = c.year)
      ∧ (u.features = none → c2.features = c.features)
      ∧ (u.maintenance_history = none → c2.maintenance_history = c.maintenance_history)
      ∧ (u.location_id = none → c2.location_id = c.location_id)
      ∧ (u.is_active = none → c2.is_active = c.is_active)
      ∧ (u.is_available = none → c2.is_available = c.is_available)
      ∧ c2.id = c.id ∧ c2.created_at = c.created_at
      ∧ c2.updated_at = some now) := by
  refine ⟨?_, ?_, ?_⟩
  · intro s cid u now c c2 hfind hup
    unfold update_customer at hup
    rw [hfind] at hup
    replace hup : Except.ok (applyCustomerUpdate c u now) = Except.ok c2 := hup
    cases hup
    exact ⟨fun h => by simp [applyCustomerUpdate, h],
           fun h => by simp [applyCustomerUpdate, h],
           fun h => by simp [applyCustomerUpdate, h],
           fun h => by simp [applyCustomerUpdate, h],
           fun h => by simp [applyCustomerUpdate, h],
           fun h => by simp [applyCustomerUpdate, h],
           fun h => by simp [applyCustomerUpdate, h],
           rfl, rfl, rfl, rfl⟩
  · intro s lid u now l l2 hfind hup
    unfold update_location at hup
    rw [hfind] at hup
    replace hup : Except.ok (applyLocationUpdate l u now) = Except.ok l2 := hup
    cases hup
    exact ⟨fun h => by simp [applyLocationUpdate, h],
           fun h => by simp [applyLocationUpdate, h],
           fun h => by simp [applyLocationUpdate, h],
           fun h => by simp [applyLocationUpdate, h],
           fun h => by simp [applyLocationUpdate, h],
           fun h => by simp [applyLocationUpdate, h],
           fun h => by simp [applyLocationUpdate, h],
           rfl, rfl, rfl⟩
  · intro s cid u now c c2 hfind hup
    unfold update_car at hup
    rw [hfind] at hup
    replace hup : Except.ok (applyCarUpdate c u now) = Except.ok c2 := hup
    cases hup
    exact ⟨fun h => by simp [applyCarUpdate, h],
           fun h => by simp [applyCarUpdate, h],
           fun h => by simp [applyCarUpdate, h],
           fun h => by simp [applyCarUpdate, h],
           fun h => by simp [applyCarUpdate, h],
           fun h => by simp [applyCarUpdate, h],
           fun h => by simp [applyCarUpdate, h],
           fun h => by simp [applyCarUpdate, h],
           fun h => by simp [applyCarUpdate, h],
           fun h => by simp [applyCarUpdate, h],
           rfl, rfl, rfl⟩

/-- C7 witness: updating only the name of the stored customer keeps email
and phone, and refreshes updated_at. -/
theorem claim_C7_partial_update_frame_witness :
    ({ name := some "B" } : CustomerUpdate).email = none
    ∧ (update_customer [c7Cust] "c1" { name := some "B" } 5 false).1 =
        .ok { c7Cust with name := "B"
                          updated_at := some 5 }
    ∧ ({ c7Cust with name := "B"
                     updated_at := some 5 } : Customer).email = c7Cust.email
    ∧ ({ c7Cust with name := "B"
                     updated_at := some 5 } : Customer).updated_at = some 5 := by
  have h := claim_C7_partial_update_frame.1 [c7Cust] "c1" { name := some "B" } 5 c7Cust _
    rfl rfl
  exact ⟨rfl, rfl, h.2.1 rfl, h.2.2.2.2.2.2.2.2.2.2⟩

theorem find?_map_self {β : Type} (p : β → Bool) (c2 : β) (hp2 : p c2 = true) :
    ∀ (l : List β) (c : β), l.find? p = some c →
    (l.map (fun x => if p x then c2 else x)).find? p = some c2 := by
  intro l
  induction l with
  | nil =>
      intro c h
      simp at h
  | cons a rest ih =>
      intro c h
      by_cases hpa : p a = true
      · simp only [List.map_cons, if_pos hpa]
        exact List.find?_cons_of_pos _ hp2
      · rw [List.find?_cons_of_neg _ hpa] at h
        simp only [List.map_cons, if_neg hpa]
        rw [List.find?_cons_of_neg _ hpa]
        exact ih c h

theorem find?_isSome_map {β : Type} (q : β → Bool) (g : β → β) :
    ∀ (l : List β), (∀ x ∈ l, q (g x) = q x) →
    ((l.map g).find? q).isSome = (l.find? q).isSome := by
  intro l
  induction l with
  | nil =>
      intro hg
      rfl
  | cons a rest ih =>
      intro hg
      have hga := hg a (by simp)
      by_cases hqa : q a = true
      · simp only [List.map_cons]
        rw [List.find?_cons_of_pos _ (hga.trans hqa), List.find?_cons_of_pos _ hqa]
        rfl
      · simp only [List.map_cons]
        rw [List.find?_cons_of_neg _ (by rw [hga]; exact hqa), List.find?_cons_of_neg _ hqa]
        exact ih (fun x hx => hg x (by simp [hx]))

/-- C8: soft delete is idempotent in observable effect and never removes a
record.  Deleting an entity that is already inactive (the lookup has no
is_active filter) still answers 204 and leaves is_active false; and for
every delete call — hit or miss — the store keeps the same length and every
id remains exactly as retrievable as before. -/
theorem claim_C8_soft_delete_idempotent :
    (∀ (s : List Customer) (cid : String) (now : Nat) (c : Customer),
      findCustomer s cid = some c → c.is_active = false →
      (delete_customer s cid now).1 = 204
      ∧ findCustomer (delete_customer s cid now).2 cid =
          some { c with is_active := false
                        updated_at := some now }
      ∧ (delete_customer s cid now).2.length = s.length)
    ∧ (∀ (s : List Customer) (cid : String) (now : Nat) (i : String),
      (findCustomer (delete_customer s cid now).2 i).isSome = (findCustomer s i).isSome)
    ∧ (∀ (s : List Location) (lid : String) (now : Nat) (l : Location),
      findLocation s lid = some l → l.is_active = false →
      (delete_location s lid now).1 = 204
      ∧ findLocation (delete_location s lid now).2 lid =
          some { l with is_active := false
                        updated_at := some now }
      ∧ (delete_location s lid now).2.length = s.length)
    ∧ (∀ (s : List Location) (lid : String) (now : Nat) (i : String),
      (findLocation (delete_location s lid now).2 i).isSome = (findLocation s i).isSome)
    ∧ (∀ (s : List Car) (cid : String) (now : Nat) (c : Car),
      findCar s cid = some c → c.is_active = false →
      (delete_car s cid now).1 = 204
      ∧ findCar (delete_car s cid now).2 cid =
          some { c with is_active := false
                        updated_at := some now }
      ∧ (delete_car s cid now).2.length = s.length)
    ∧ (∀ (s : List Car) (cid : String) (now : Nat) (i : String),
      (findCar (delete_car s cid now).2 i).isSome = (findCar s i).isSome) := by
  refine ⟨?_, ?_, ?_, ?_, ?_, ?_⟩
  · intro s cid now c hfind hina
    have hdel : delete_customer s cid now =
        (204, s.map (fun x => if x.id == cid then
            { c with is_active := false
                     updated_at := some now } else x)) := by
      unfold delete_customer
      rw [hfind]
    rw [hdel]
    have hfind2 : List.find? (fun x => x.id == cid) s = some c := by
      simpa [findCustomer] using hfind
    have hp2 : (({ c with is_active := false
                          updated_at := some now } : Customer).id == cid) = true := by
      simpa using List.find?_some hfind2
    refine ⟨rfl, ?_, by simp⟩
    simp only [findCustomer]
    exact find?_map_self _
      { c with is_active := false
               updated_at := some now } hp2 s c hfind2
  · intro s cid now i
    cases hf : findCustomer s cid with
    | none =>
        have hdel : delete_customer s cid now = (404, s) := by
          unfold delete_customer
          rw [hf]
        rw [hdel]
    | some c =>
        have hdel : delete_customer s cid now =
            (204, s.map (fun x => if x.id == cid then
                { c with is_active := false
                         updated_at := some now } else x)) := by
          unfold delete_customer
          rw [hf]
        rw [hdel]
        have hcid : c.id = cid := by simpa using List.find?_some hf
        apply find?_isSome_map
        intro x hx
        by_cases hxc : (x.id == cid) = true
        · have hxid : x.id = cid := by simpa using hxc
          simp only [if_pos hxc]
          show (c.id == i) = (x.id == i)
          rw [hcid, hxid]
        · simp only [if_neg hxc]
  · intro s lid now l hfind hina
    have hdel : delete_location s lid now =
        (204, s.map (fun x => if x.id == lid then
            { l with is_active := false
                     updated_at := some now } else x)) := by
      unfold delete_location
      rw [hfind]
    rw [hdel]
    have hfind2 : List.find? (fun x => x.id == lid) s = some l := by
      simpa [findLocation] using hfind
    have hp2 : (({ l with is_active := false
                          updated_at := some now } : Location).id == lid) = true := by
      simpa using List.find?_some hfind2
    refine ⟨rfl, ?_, by simp⟩
    simp only [findLocation]
    exact find?_map_self _
      { l with is_active := false
               updated_at := some now } hp2 s l hfind2
  · intro s lid now i
    cases hf : findLocation s lid with
    | none =>
        have hdel : delete_location s lid now = (404, s) := by
          unfold delete_location
          rw [hf]
        rw [hdel]
    | some l =>
        have hdel : delete_location s lid now =
            (204, s.map (fun x => if x.id == lid then
                { l with is_active := false
                         updated_at := some now } else x)) := by
          unfold delete_location
          rw [hf]
        rw [hdel]
        have hcid : l.id = lid := by simpa using List.find?_some hf
        apply find?_isSome_map
        intro x hx
        by_cases hxc : (x.id == lid) = true
        · have hxid : x.id = lid := by simpa using hxc
          simp only [if_pos hxc]
          show (l.id == i) = (x.id == i)
          rw [hcid, hxid]
        · simp only [if_neg hxc]
  · intro s cid now c hfind hina
    have hdel : delete_car s cid now =
        (204, s.map (fun x => if x.id == cid then
            { c with is_active := false
                     updated_at := some now } else x)) := by
      unfold delete_car
      rw [hfind]
    rw [hdel]
    have hfind2 : List.find? (fun x => x.id == cid) s = some c := by
      simpa [findCar] using hfind
    have hp2 : (({ c with is_active := false
                          updated_at := some now } : Car).id == cid) = true := by
      simpa using List.find?_some hfind2
    refine ⟨rfl, ?_, by simp⟩
    simp only [findCar]
    exact find?_map_self _
      { c with is_active := false
               updated_at := some now } hp2 s c hfind2
  · intro s cid now i
    cases hf : findCar s cid with
    | none =>
        have hdel : delete_car s cid now = (404, s) := by
          unfold delete_car
          rw [hf]
        rw [hdel]
    | some c =>
        have hdel : delete_car s cid now =
            (204, s.map (fun x => if x.id == cid then
                { c with is_active := false
                         updated_at := some now } else x)) := by
          unfold delete_car
          rw [hf]
        rw [hdel]
        have hcid : c.id = cid := by simpa using List.find?_some hf
        apply find?_isSome_map
        intro x hx
        by_cases hxc : (x.id == cid) = true
        · have hxid : x.id = cid := by simpa using hxc
          simp only [if_pos hxc]
          show (c.id == i) = (x.id == i)
          rw [hcid, hxid]
        · simp only [if_neg hxc]

/-- C8 witness: deleting an already-inactive stored customer answers 204,
the record is still retrievable with is_active false, and the store length
is unchanged. -/
theorem claim_C8_soft_delete_idempotent_witness :
    ({ c7Cust with is_active := false } : Customer).is_active = false
    ∧ (delete_customer [{ c7Cust with is_active := false }] "c1" 3).1 = 204
    ∧ findCustomer (delete_customer [{ c7Cust with is_active := false }] "c1" 3).2 "c1" =
        some { c7Cust with is_active := false
                           updated_at := some 3 }
    ∧ (delete_customer [{ c7Cust with is_active := false }] "c1" 3).2.length = 1 := by
  have h := claim_C8_soft_delete_idempotent.1
    [{ c7Cust with is_active := false }] "c1" 3 { c7Cust with is_active := false } rfl rfl
  exact ⟨rfl, h.1, h.2.1, h.2.2⟩

